import Mathlib

/-!
# alsa-lib: hardware PCM backend and control event loop

A shallow embedding of `src/pcm/pcm_hw.c` and `src/control/control.c`.

Functions that talk to the kernel are modelled against an explicit
environment that supplies the outcome of every external call, and they
return, next to the C return value, the ordered list of external calls they
made.  A C `int`/`ssize_t` is an `Int`; a `size_t` is a `Nat` below `2 ^ 64`,
with the conversions between the two made explicit.  The counters `attempt`
and `count` stay far below the range of an `int` and are not wrapped.
A failed `assert` aborts the process and is the result `none`.

Headers of the library (`pcm_local.h`, `control_local.h`, `asoundlib.h`) are
not part of the sources: the constants, macros and inline helpers they define
are modelled from the specification and marked as such.
-/

namespace AlsaLib

/-! ## Error numbers -/

/-- errno value of an I/O error (errno.h) -/
def EIO : Int := 5
/-- errno value of an allocation failure (errno.h) -/
def ENOMEM : Int := 12
/-- errno value of a busy device (errno.h) -/
def EBUSY : Int := 16
/-- errno value of an invalid argument (errno.h) -/
def EINVAL : Int := 22
/-- errno value of a broken pipe, used for xrun (errno.h) -/
def EPIPE : Int := 32

/-- Modelled from the spec: the dedicated incompatible-version error code
`SND_ERROR_INCOMPATIBLE_VERSION`; its header is not part of the sources, the
value is the library's error base. -/
def SND_ERROR_INCOMPATIBLE_VERSION : Int := 500000

/-- Outcome of one system call: the returned value and the errno it leaves
behind when it fails. -/
structure SysRet where
  ret : Int
  errno : Int
  deriving DecidableEq, Repr

/-! ## Open negotiation (`snd_pcm_hw_open_subdevice`) -/

/-- External calls made while opening a hardware PCM, in program order, each
with the values the environment answered. -/
inductive Event where
  | ctl_hw_open (card : Int)
  | ctl_pcm_prefer_subdevice (subdev : Int)
  | ctl_close
  | sys_open (stream card device : Int) (fmode : Nat) (ret : Int)
  | ioctl_pversion (fd : Int) (ret : Int) (ver : Int)
  | ioctl_info (fd : Int) (ret : Int) (subdevice : Int)
  | sys_close (fd : Int)
  | mmap_status (fd : Int)
  | mmap_control (fd : Int)
  | pcm_close (fd : Int)
  deriving DecidableEq, Repr

/-- Modelled from the spec: stream direction code of a playback stream; the
header that defines it is not part of the sources. -/
def SND_PCM_STREAM_PLAYBACK : Int := 0
/-- Modelled from the spec: stream direction code of a capture stream; the
header that defines it is not part of the sources. -/
def SND_PCM_STREAM_CAPTURE : Int := 1
/-- Modelled from the spec: open-mode flag "non-blocking"; the header that
defines it is not part of the sources. -/
def SND_PCM_NONBLOCK : Nat := 1
/-- Modelled from the spec: open-mode flag "async-signal"; the header that
defines it is not part of the sources. -/
def SND_PCM_ASYNC : Nat := 2
/-- File access mode read/write (fcntl.h). -/
def O_RDWR : Nat := 2
/-- File status flag non-blocking (fcntl.h). -/
def O_NONBLOCK : Nat := 2048
/-- File status flag signal-driven I/O (fcntl.h). -/
def O_ASYNC : Nat := 8192

/-- The environment of one call of `snd_pcm_hw_open_subdevice`.  Calls that
are repeated by the retry loop are indexed by the number of the attempt
(0 for the first pass through `__again`).  `incompatible` stands for the
macro `SND_PROTOCOL_INCOMPATIBLE(ver, SND_PCM_VERSION_MAX)`, whose header is
not part of the sources. -/
structure OpenEnv where
  ctl_hw_open : Int
  prefer_subdevice : Nat → Int
  sys_open : Nat → SysRet
  pversion : Nat → SysRet
  ver : Nat → Int
  incompatible : Int → Bool
  info : Nat → SysRet
  info_subdevice : Nat → Int
  calloc_hw : Bool
  calloc_pcm : Bool
  mmap_status : SysRet
  mmap_control : SysRet

/-- The value `mmap` returns on failure, `MAP_FAILED` (sys/mman.h). -/
def MAP_FAILED : Int := -1

/-- Embedding of `snd_pcm_hw_mmap_status`: map the status region of `fd`. -/
def snd_pcm_hw_mmap_status (env : OpenEnv) (fd : Int) : Int × List Event :=
  let ptr := env.mmap_status.ret
  if ptr = MAP_FAILED ∨ ptr = 0 then
    (-env.mmap_status.errno, [Event.mmap_status fd])
  else
    (0, [Event.mmap_status fd])

/-- Embedding of `snd_pcm_hw_mmap_control`: map the control region of `fd`. -/
def snd_pcm_hw_mmap_control (env : OpenEnv) (fd : Int) : Int × List Event :=
  let ptr := env.mmap_control.ret
  if ptr = MAP_FAILED ∨ ptr = 0 then
    (-env.mmap_control.errno, [Event.mmap_control fd])
  else
    (0, [Event.mmap_control fd])

/-- Lines 625-671 of `snd_pcm_hw_open_subdevice`: allocate the session for
the accepted descriptor `fd` and map both regions. -/
def open_session (env : OpenEnv) (fd : Int) : Option Int × List Event :=
  if ¬ env.calloc_hw then
    -- hw == NULL: ret = -ENOMEM; goto _err
    (some (-ENOMEM), [Event.sys_close fd, Event.ctl_close])
  else if ¬ env.calloc_pcm then
    -- pcm == NULL: ret = -ENOMEM; goto _err (frees hw)
    (some (-ENOMEM), [Event.sys_close fd, Event.ctl_close])
  else
    let s := snd_pcm_hw_mmap_status env fd
    if s.1 < 0 then
      (some s.1, s.2 ++ [Event.pcm_close fd, Event.ctl_close])
    else
      let c := snd_pcm_hw_mmap_control env fd
      if c.1 < 0 then
        (some c.1, s.2 ++ c.2 ++ [Event.pcm_close fd, Event.ctl_close])
      else
        (some 0, s.2 ++ c.2)

/-- The open flags computed from the open mode (lines 594-598). -/
def open_fmode (mode : Nat) : Nat :=
  let fmode := O_RDWR
  let fmode := if mode &&& SND_PCM_NONBLOCK ≠ 0 then fmode ||| O_NONBLOCK else fmode
  let fmode := if mode &&& SND_PCM_ASYNC ≠ 0 then fmode ||| O_ASYNC else fmode
  fmode

/-- The retry loop of `snd_pcm_hw_open_subdevice` from the label `__again`
(lines 584-671), entered with the current value of `attempt`. -/
def open_again (env : OpenEnv) (card device subdevice stream : Int) (mode : Nat)
    (attempt : Nat) : Option Int × List Event :=
  if _h : attempt > 3 then
    (some (-EBUSY), [Event.ctl_close])
  else
    let ret := env.prefer_subdevice attempt
    let e_prefer := Event.ctl_pcm_prefer_subdevice subdevice
    if ret < 0 then
      (some ret, [e_prefer, Event.ctl_close])
    else
      let fd := (env.sys_open attempt).ret
      let e_open := Event.sys_open stream card device (open_fmode mode) fd
      if fd < 0 then
        (some (-(env.sys_open attempt).errno), [e_prefer, e_open, Event.ctl_close])
      else
        let e_ver := Event.ioctl_pversion fd (env.pversion attempt).ret (env.ver attempt)
        if (env.pversion attempt).ret < 0 then
          -- ret = -errno; goto _err
          (some (-(env.pversion attempt).errno),
            [e_prefer, e_open, e_ver, Event.sys_close fd, Event.ctl_close])
        else if env.incompatible (env.ver attempt) then
          -- ret = -SND_ERROR_INCOMPATIBLE_VERSION; goto _err
          (some (-SND_ERROR_INCOMPATIBLE_VERSION),
            [e_prefer, e_open, e_ver, Event.sys_close fd, Event.ctl_close])
        else if subdevice ≥ 0 then
          let e_info :=
            Event.ioctl_info fd (env.info attempt).ret (env.info_subdevice attempt)
          if (env.info attempt).ret < 0 then
            -- ret = -errno; goto _err
            (some (-(env.info attempt).errno),
              [e_prefer, e_open, e_ver, e_info, Event.sys_close fd, Event.ctl_close])
          else if env.info_subdevice attempt ≠ subdevice then
            -- close(fd); goto __again
            let rest := open_again env card device subdevice stream mode (attempt + 1)
            (rest.1, [e_prefer, e_open, e_ver, e_info, Event.sys_close fd] ++ rest.2)
          else
            let rest := open_session env fd
            (rest.1, [e_prefer, e_open, e_ver, e_info] ++ rest.2)
        else
          let rest := open_session env fd
          (rest.1, [e_prefer, e_open, e_ver] ++ rest.2)
termination_by 4 - attempt
decreasing_by omega

/-- Embedding of `snd_pcm_hw_open_subdevice`: the C return value (`none` when
the `assert(0)` of the stream switch aborts) and the external calls made. -/
def snd_pcm_hw_open_subdevice (env : OpenEnv) (card device subdevice stream : Int)
    (mode : Nat) : Option Int × List Event :=
  let ret := env.ctl_hw_open
  if ret < 0 then
    (some ret, [Event.ctl_hw_open card])
  else if stream = SND_PCM_STREAM_PLAYBACK ∨ stream = SND_PCM_STREAM_CAPTURE then
    let rest := open_again env card device subdevice stream mode 0
    (rest.1, Event.ctl_hw_open card :: rest.2)
  else
    (none, [Event.ctl_hw_open card])

/-- The descriptors left open by a run: `sys_open` adds the descriptor it
returned, `close` removes one holder of it, and `snd_pcm_close` releases the
descriptor owned by the session it destroys.  `acc` holds the descriptors
open so far. -/
def open_fds : List Event → List Int → List Int
  | [], acc => acc
  | Event.sys_open _ _ _ _ fd :: es, acc =>
      open_fds es (if 0 ≤ fd then fd :: acc else acc)
  | Event.sys_close fd :: es, acc => open_fds es (acc.erase fd)
  | Event.pcm_close fd :: es, acc => open_fds es (acc.erase fd)
  | _ :: es, acc => open_fds es acc

/-- Whether an event is an attempt to open the device file. -/
def is_sys_open : Event → Bool
  | Event.sys_open _ _ _ _ _ => true
  | _ => false

/-- Modelled from the spec: the version macros of the kernel header, which is
not part of the sources.  A version packs major, minor and subminor numbers;
it is incompatible when it is "not within the supported major/minor
envelope", that is when its major or its minor number differs from the
supported one. -/
def SND_PROTOCOL_VERSION (major minor subminor : Int) : Int :=
  major * 65536 + minor * 256 + subminor

/-- Modelled from the spec: major number of a packed version (header macro
not part of the sources). -/
def SND_PROTOCOL_MAJOR (version : Int) : Int := (version / 65536) % 65536

/-- Modelled from the spec: minor number of a packed version (header macro
not part of the sources). -/
def SND_PROTOCOL_MINOR (version : Int) : Int := (version / 256) % 256

/-- The supported maximum `SND_PCM_VERSION_MAX` (line 47). -/
def SND_PCM_VERSION_MAX : Int := SND_PROTOCOL_VERSION 2 0 0

/-- Modelled from the spec: `SND_PROTOCOL_INCOMPATIBLE`, header macro not part
of the sources; see `SND_PROTOCOL_VERSION`. -/
def SND_PROTOCOL_INCOMPATIBLE (kversion uversion : Int) : Bool :=
  decide (SND_PROTOCOL_MAJOR kversion ≠ SND_PROTOCOL_MAJOR uversion) ||
  decide (SND_PROTOCOL_MINOR kversion ≠ SND_PROTOCOL_MINOR uversion)

/-- An environment in which every call succeeds, every open returns
descriptor `3`, the device speaks version `ver` and reports subdevice
`reported`. -/
def env_ok (ver reported : Int) : OpenEnv where
  ctl_hw_open := 0
  prefer_subdevice := fun _ => 0
  sys_open := fun _ => ⟨3, 0⟩
  pversion := fun _ => ⟨0, 0⟩
  ver := fun _ => ver
  incompatible := fun v => SND_PROTOCOL_INCOMPATIBLE v SND_PCM_VERSION_MAX
  info := fun _ => ⟨0, 0⟩
  info_subdevice := fun _ => reported
  calloc_hw := true
  calloc_pcm := true
  mmap_status := ⟨4096, 0⟩
  mmap_control := ⟨8192, 0⟩

/-! ## Closing a session (`snd_pcm_hw_close`) -/

/-- The three releases of the close path. -/
inductive Release where
  | sys_close (fd : Int)
  | munmap_status
  | munmap_control
  deriving DecidableEq, Repr

/-- The environment of one call of `snd_pcm_hw_close`: the outcome of
`close` and of the two `munmap` calls. -/
structure CloseEnv where
  sys_close : SysRet
  munmap_status : SysRet
  munmap_control : SysRet

/-- Embedding of `snd_pcm_hw_munmap_status` (lines 417-425). -/
def snd_pcm_hw_munmap_status (env : CloseEnv) : Int × List Release :=
  if env.munmap_status.ret < 0 then
    (-env.munmap_status.errno, [Release.munmap_status])
  else
    (0, [Release.munmap_status])

/-- Embedding of `snd_pcm_hw_munmap_control` (lines 427-435). -/
def snd_pcm_hw_munmap_control (env : CloseEnv) : Int × List Release :=
  if env.munmap_control.ret < 0 then
    (-env.munmap_control.errno, [Release.munmap_control])
  else
    (0, [Release.munmap_control])

/-- Embedding of `snd_pcm_hw_close` (lines 448-460): the return value and the
releases attempted, in order, for a session that owns descriptor `fd`. -/
def snd_pcm_hw_close (env : CloseEnv) (fd : Int) : Int × List Release :=
  -- free(hw); if (close(fd)) return -errno;
  if env.sys_close.ret ≠ 0 then
    (-env.sys_close.errno, [Release.sys_close fd])
  else
    -- the values returned by the two helpers are not used
    let s := snd_pcm_hw_munmap_status env
    let c := snd_pcm_hw_munmap_control env
    (0, [Release.sys_close fd] ++ s.2 ++ c.2)

/-! ## Positions and availability -/

/-- Number of values of a `size_t`. -/
def SIZE_MOD : Nat := 2 ^ 64

/-- Conversion of a `size_t` value to `ssize_t`. -/
def to_ssize (n : Nat) : Int :=
  if n % SIZE_MOD < SIZE_MOD / 2 then ((n % SIZE_MOD : Nat) : Int)
  else ((n % SIZE_MOD : Nat) : Int) - (SIZE_MOD : Int)

/-- Conversion of an integer to `size_t` (wraps modulo `2 ^ 64`). -/
def to_size (i : Int) : Nat := (i % (SIZE_MOD : Int)).toNat

/-- Modelled from the spec: ready mode code "as soon as possible"; the header
that defines it is not part of the sources. -/
def SND_PCM_READY_ASAP : Int := 1
/-- Modelled from the spec: xrun mode code "as soon as possible"; the header
that defines it is not part of the sources. -/
def SND_PCM_XRUN_ASAP : Int := 1
/-- Modelled from the spec: ring shape code of the user-mapped fallback shape
("unspecified"); the header that defines it is not part of the sources. -/
def SND_PCM_MMAP_UNSPECIFIED : Int := 0
/-- Modelled from the spec: ring shape code of a kernel-mapped interleaved
ring; the header that defines it is not part of the sources. -/
def SND_PCM_MMAP_INTERLEAVED : Int := 1

/-- The fields of `pcm->setup` read by the transfer engine.  `boundary` is
the modulus of the two position counters. -/
structure snd_pcm_setup_t where
  buffer_size : Nat
  boundary : Nat
  ready_mode : Int
  xrun_mode : Int
  mmap_shape : Int
  deriving DecidableEq, Repr

/-- The fields of `snd_pcm_t` read by the transfer engine, with the two
positions `*pcm->hw_ptr` and `*pcm->appl_ptr` as sampled by the call. -/
structure snd_pcm_t where
  stream : Int
  setup : snd_pcm_setup_t
  hw_ptr : Nat
  appl_ptr : Nat
  deriving DecidableEq, Repr

/-- The environment of the transfer engine: the outcome of the delay request
and the value `snd_pcm_read_mmap(pcm, n)` returns. -/
structure PcmEnv where
  delay : SysRet
  read_mmap : Nat → Int

/-- Modelled from the spec: the difference of two positions "taken modulo
the ring size" and never negative. -/
def ring_diff (a b boundary : Nat) : Nat :=
  (((a : Int) - (b : Int)) % (boundary : Int)).toNat

/-- Modelled from the spec: the inline helper `snd_pcm_mmap_playback_avail`,
which is not part of the sources: "available-to-write frames = buffer_size −
(appl_position − hw_position)", the difference taken modulo the ring; an
apparent negative value shows as an overflowing `size_t`. -/
def snd_pcm_mmap_playback_avail (pcm : snd_pcm_t) : Nat :=
  to_size ((pcm.setup.buffer_size : Int)
    - (ring_diff pcm.appl_ptr pcm.hw_ptr pcm.setup.boundary : Int))

/-- Modelled from the spec: the inline helper `snd_pcm_mmap_capture_avail`,
which is not part of the sources: "available-to-read = hw_position −
appl_position", taken modulo the ring. -/
def snd_pcm_mmap_capture_avail (pcm : snd_pcm_t) : Nat :=
  ring_diff pcm.hw_ptr pcm.appl_ptr pcm.setup.boundary

/-- The availability of the stream's own direction, as computed by
`snd_pcm_hw_avail_update` (lines 481-485). -/
def computed_avail (pcm : snd_pcm_t) : Nat :=
  if pcm.stream = SND_PCM_STREAM_PLAYBACK then snd_pcm_mmap_playback_avail pcm
  else snd_pcm_mmap_capture_avail pcm

/-- Modelled from the spec: the inline helper `snd_pcm_mmap_hw_avail`, which
is not part of the sources: the frame count available to rewind, "computed
from the same position pair, inverted", that is `buffer_size` minus the
availability, as an `ssize_t`. -/
def snd_pcm_mmap_hw_avail (pcm : snd_pcm_t) : Int :=
  to_ssize (to_size ((pcm.setup.buffer_size : Int) - (computed_avail pcm : Int)))

/-- Modelled from the spec: the inline helper `snd_pcm_mmap_appl_backward`,
which is not part of the sources: the application position moved backward by
`frames`, modulo the ring. -/
def snd_pcm_mmap_appl_backward (pcm : snd_pcm_t) (frames : Nat) : snd_pcm_t :=
  { pcm with appl_ptr := ring_diff pcm.appl_ptr frames pcm.setup.boundary }

/-- Modelled from the spec: the difference of the two positions: "appl −
hw" for playback, "hw − appl" for capture, taken modulo the ring. -/
def position_difference (pcm : snd_pcm_t) : Nat :=
  if pcm.stream = SND_PCM_STREAM_PLAYBACK then
    ring_diff pcm.appl_ptr pcm.hw_ptr pcm.setup.boundary
  else
    ring_diff pcm.hw_ptr pcm.appl_ptr pcm.setup.boundary

/-- Embedding of `snd_pcm_hw_delay` (lines 222-231), return value only. -/
def snd_pcm_hw_delay (env : PcmEnv) : Int :=
  if env.delay.ret < 0 then -env.delay.errno else 0

/-- Embedding of `snd_pcm_hw_avail_update` (lines 470-496); `none` is a
failed `assert`. -/
def snd_pcm_hw_avail_update (env : PcmEnv) (pcm : snd_pcm_t) : Option Int :=
  if (pcm.setup.ready_mode = SND_PCM_READY_ASAP ∨
      pcm.setup.xrun_mode = SND_PCM_XRUN_ASAP) ∧ snd_pcm_hw_delay env < 0 then
    some (snd_pcm_hw_delay env)
  else if pcm.stream = SND_PCM_STREAM_PLAYBACK then
    let avail := snd_pcm_mmap_playback_avail pcm
    if avail > pcm.setup.buffer_size then some (- EPIPE) else some (to_ssize avail)
  else
    let avail := snd_pcm_mmap_capture_avail pcm
    if avail > 0 ∧ pcm.setup.mmap_shape = SND_PCM_MMAP_UNSPECIFIED then
      let err := env.read_mmap avail
      if err < 0 then some err
      else if to_size err = avail then some err
      else none
    else if avail > pcm.setup.buffer_size then some (- EPIPE)
    else some (to_ssize avail)

/-- Embedding of `snd_pcm_hw_rewind` (lines 288-304): the return value and
the session after the call. -/
def snd_pcm_hw_rewind (env : PcmEnv) (pcm : snd_pcm_t) (frames : Nat) :
    Int × snd_pcm_t :=
  if pcm.setup.xrun_mode = SND_PCM_XRUN_ASAP ∧ snd_pcm_hw_delay env < 0 then
    (0, pcm)
  else
    let hw_avail := snd_pcm_mmap_hw_avail pcm
    if hw_avail ≤ 0 then
      (0, pcm)
    else
      let frames := if frames > to_size hw_avail then to_size hw_avail else frames
      (to_ssize frames, snd_pcm_mmap_appl_backward pcm frames)

/-! ## Control event loop (`snd_ctl_read`) -/

/-- Modelled from the spec: event kind code "rebuild"; the header that defines
the five codes is not part of the sources. -/
def SND_CTL_EVENT_REBUILD : Int := 0
/-- Modelled from the spec: event kind code "value-changed". -/
def SND_CTL_EVENT_VALUE : Int := 1
/-- Modelled from the spec: event kind code "attributes-changed". -/
def SND_CTL_EVENT_CHANGE : Int := 2
/-- Modelled from the spec: event kind code "added". -/
def SND_CTL_EVENT_ADD : Int := 3
/-- Modelled from the spec: event kind code "removed". -/
def SND_CTL_EVENT_REMOVE : Int := 4

/-- The fields of `snd_ctl_event_t` read by the loop: the kind `r.type` and
the control identifier `r.data.id`. -/
structure snd_ctl_event_t where
  type : Int
  id : Nat
  deriving DecidableEq, Repr

/-- A non-null `snd_ctl_callbacks_t`: the private data and, for each of the
five handlers, whether the function pointer is set. -/
structure snd_ctl_callbacks_t where
  private_data : Nat
  rebuild : Bool
  value : Bool
  change : Bool
  add : Bool
  remove : Bool
  deriving DecidableEq, Repr

/-- One invocation of a handler, with the arguments it received. -/
inductive HandlerCall where
  | rebuild (private_data : Nat)
  | value (private_data : Nat) (id : Nat)
  | change (private_data : Nat) (id : Nat)
  | add (private_data : Nat) (id : Nat)
  | remove (private_data : Nat) (id : Nat)
  deriving DecidableEq, Repr

/-- One answer of `snd_ctl_read1` (`ctl->ops->read`): the returned length,
the errno left by a failure, and the record stored in `r`. -/
structure CtlRead where
  result : Int
  errno : Int
  r : snd_ctl_event_t
  deriving DecidableEq, Repr

/-- The `switch (r.type)` of `snd_ctl_read` (lines 131-152): the handler
calls made for one record. -/
def ctl_dispatch (callbacks : snd_ctl_callbacks_t) (r : snd_ctl_event_t) :
    List HandlerCall :=
  if r.type = SND_CTL_EVENT_REBUILD then
    if callbacks.rebuild then [HandlerCall.rebuild callbacks.private_data] else []
  else if r.type = SND_CTL_EVENT_VALUE then
    if callbacks.value then [HandlerCall.value callbacks.private_data r.id] else []
  else if r.type = SND_CTL_EVENT_CHANGE then
    if callbacks.change then [HandlerCall.change callbacks.private_data r.id] else []
  else if r.type = SND_CTL_EVENT_ADD then
    if callbacks.add then [HandlerCall.add callbacks.private_data r.id] else []
  else if r.type = SND_CTL_EVENT_REMOVE then
    if callbacks.remove then [HandlerCall.remove callbacks.private_data r.id] else []
  else []

/-- The `while` loop of `snd_ctl_read` (lines 126-155), entered with the
current `count`.  `sizeof_r` is `sizeof(snd_ctl_event_t)`; `callbacks` is
`none` for a null pointer; the list holds the answers the next reads will
get, and a read beyond them finds nothing and returns 0.  The result is the
return value, the handler calls made, and the answers not consumed. -/
def ctl_read_loop (sizeof_r : Int) (callbacks : Option snd_ctl_callbacks_t) :
    List CtlRead → Int → Int × List HandlerCall × List CtlRead
  | [], count => (count, [], [])
  | q :: rest, count =>
    if q.result > 0 then
      if q.result ≠ sizeof_r then
        (- EIO, [], rest)
      else
        match callbacks with
        | none => ctl_read_loop sizeof_r none rest count
        | some cb =>
          let out := ctl_read_loop sizeof_r (some cb) rest (count + 1)
          (out.1, ctl_dispatch cb q.r ++ out.2.1, out.2.2)
    else
      (if q.result ≥ 0 then count else -q.errno, [], rest)

/-- Embedding of `snd_ctl_read` (lines 119-156). -/
def snd_ctl_read (sizeof_r : Int) (callbacks : Option snd_ctl_callbacks_t)
    (reads : List CtlRead) : Int × List HandlerCall × List CtlRead :=
  ctl_read_loop sizeof_r callbacks reads 0

/-- The handler call the event loop owes for one event, in the words of the
specification: the handler matching the kind of the event, when the kind is
one of the five and that handler is registered, receives the control
identifier of the event (the rebuild handler receives none); otherwise
nothing is invoked. -/
def expected_call (callbacks : snd_ctl_callbacks_t) (r : snd_ctl_event_t) :
    Option HandlerCall :=
  if r.type = SND_CTL_EVENT_REBUILD ∧ callbacks.rebuild then
    some (HandlerCall.rebuild callbacks.private_data)
  else if r.type = SND_CTL_EVENT_VALUE ∧ callbacks.value then
    some (HandlerCall.value callbacks.private_data r.id)
  else if r.type = SND_CTL_EVENT_CHANGE ∧ callbacks.change then
    some (HandlerCall.change callbacks.private_data r.id)
  else if r.type = SND_CTL_EVENT_ADD ∧ callbacks.add then
    some (HandlerCall.add callbacks.private_data r.id)
  else if r.type = SND_CTL_EVENT_REMOVE ∧ callbacks.remove then
    some (HandlerCall.remove callbacks.private_data r.id)
  else none

/-! ## Backend resolver (`snd_ctl_open`, `_snd_pcm_hw_open`) -/

/-- errno value of a missing file or module (errno.h) -/
def ENOENT : Int := 2
/-- errno value of a missing device or address (errno.h) -/
def ENXIO : Int := 6

/-- One child `n` of a configuration compound, as the resolver sees it: its
key `n->id`, and what `snd_config_string_get(n, ..)` and
`snd_config_integer_get(n, ..)` answer for it (the returned error code and
the value stored on success). -/
structure ConfigEntry where
  id : String
  string_get : Int × String
  integer_get : Int × Int
  deriving DecidableEq, Repr

/-- External calls of the control resolver that reach beyond configuration
lookups: the direct hardware open, and the loading of a module and the call
of its entry point. -/
inductive ResolverEvent where
  | ctl_hw_open (name : String) (cardno : Int)
  | dlopen (lib : String)
  | dlsym (lib sym : String)
  | dlclose (lib : String)
  | open_func (lib sym : String)
  deriving DecidableEq, Repr

/-- The environment of one call of `snd_ctl_open`: the answers of the
configuration lookups, of the card lookup and the hardware open, and of the
dynamic loader. -/
structure ResolverEnv where
  /-- answer of `snd_config_update()` -/
  config_update : Int
  /-- answer of `snd_config_searchv(snd_config, &ctl_conf, "ctl", name, 0)` -/
  search_ctl : Int
  /-- whether `snd_config_type(ctl_conf)` is `SND_CONFIG_TYPE_COMPOUND` -/
  ctl_conf_compound : Bool
  /-- answer of `snd_config_search(ctl_conf, "type", &conf)` -/
  search_type : Int
  /-- answer of `snd_config_string_get(conf, &str)`: error code and `str` -/
  type_string_get : Int × String
  /-- answer of `snd_config_searchv(snd_config, &type_conf, "ctltype", str, 0)` -/
  search_ctltype : String → Int
  /-- the children of `type_conf`, in iteration order -/
  type_conf : String → List ConfigEntry
  /-- answer of `snd_card_get_index(name)` -/
  card_get_index : Int
  /-- answer of `snd_ctl_hw_open(ctlp, name, cardno)` -/
  ctl_hw_open : Int
  /-- whether `dlopen(lib, RTLD_NOW)` returns a handle -/
  dlopen : String → Bool
  /-- whether `dlsym(h, open)` finds the symbol -/
  dlsym : String → String → Bool
  /-- the value returned by the entry point found in the module -/
  open_func : String → String → Int

/-- The `snd_config_foreach` loop of `snd_ctl_open` (lines 187-204), entered
with the current values of `lib` and `open` (`none` for a null pointer).  The
first component is the value of an early `return`, if any. -/
def ctl_type_scan : List ConfigEntry → Option String → Option String →
    Option Int × Option String × Option String
  | [], lib, sym => (none, lib, sym)
  | n :: rest, lib, sym =>
    if n.id = "comment" then
      ctl_type_scan rest lib sym
    else if n.id = "lib" then
      if n.string_get.1 < 0 then (some (- EINVAL), lib, sym)
      else ctl_type_scan rest (some n.string_get.2) sym
    else if n.id = "open" then
      if n.string_get.1 < 0 then (some (- EINVAL), lib, sym)
      else
        -- continue; the `return -EINVAL` written after it is never reached
        ctl_type_scan rest lib (some n.string_get.2)
    else
      -- no branch taken: the body ends and the loop goes on
      ctl_type_scan rest lib sym

/-- Embedding of `snd_ctl_open` (lines 158-217): the return value and the
external calls made beyond the configuration lookups. -/
def snd_ctl_open (env : ResolverEnv) (name : String) : Int × List ResolverEvent :=
  if env.config_update < 0 then
    (env.config_update, [])
  else if env.search_ctl < 0 then
    (env.ctl_hw_open, [ResolverEvent.ctl_hw_open name env.card_get_index])
  else if ¬ env.ctl_conf_compound then
    (- EINVAL, [])
  else if env.search_type < 0 then
    (env.search_type, [])
  else if env.type_string_get.1 < 0 then
    (env.type_string_get.1, [])
  else
    let str := env.type_string_get.2
    if env.search_ctltype str < 0 then
      (env.search_ctltype str, [])
    else
      let scan := ctl_type_scan (env.type_conf str) none none
      match scan.1 with
      | some err => (err, [])
      | none =>
        match scan.2.2 with
        | none => (- EINVAL, [])
        | some sym =>
          let lib := scan.2.1.getD "libasound.so"
          if ¬ env.dlopen lib then
            (- ENOENT, [ResolverEvent.dlopen lib])
          else if ¬ env.dlsym lib sym then
            (- ENXIO, [ResolverEvent.dlopen lib, ResolverEvent.dlsym lib sym,
              ResolverEvent.dlclose lib])
          else
            (env.open_func lib sym,
              [ResolverEvent.dlopen lib, ResolverEvent.dlsym lib sym,
               ResolverEvent.dlclose lib, ResolverEvent.open_func lib sym])

/-- The `snd_config_foreach` loop of `_snd_pcm_hw_open` (lines 696-729),
entered with the current values of `card`, `device` and `subdevice`.  The
first component is the value of an early `return`, if any. -/
def pcm_hw_conf_scan (card_get_index : String → Int) :
    List ConfigEntry → Int → Int → Int → Option Int × Int × Int × Int
  | [], card, device, subdevice => (none, card, device, subdevice)
  | n :: rest, card, device, subdevice =>
    if n.id = "comment" then
      pcm_hw_conf_scan card_get_index rest card device subdevice
    else if n.id = "type" then
      pcm_hw_conf_scan card_get_index rest card device subdevice
    else if n.id = "stream" then
      pcm_hw_conf_scan card_get_index rest card device subdevice
    else if n.id = "card" then
      if n.integer_get.1 < 0 then
        if n.string_get.1 < 0 then
          (some (- EINVAL), card, device, subdevice)
        else if card_get_index n.string_get.2 < 0 then
          (some (card_get_index n.string_get.2), card_get_index n.string_get.2,
            device, subdevice)
        else
          pcm_hw_conf_scan card_get_index rest (card_get_index n.string_get.2)
            device subdevice
      else
        pcm_hw_conf_scan card_get_index rest n.integer_get.2 device subdevice
    else if n.id = "device" then
      if n.integer_get.1 < 0 then (some n.integer_get.1, card, device, subdevice)
      else pcm_hw_conf_scan card_get_index rest card n.integer_get.2 subdevice
    else if n.id = "subdevice" then
      if n.integer_get.1 < 0 then (some n.integer_get.1, card, device, subdevice)
      else pcm_hw_conf_scan card_get_index rest card device n.integer_get.2
    else
      (some (- EINVAL), card, device, subdevice)

/-- Embedding of `snd_pcm_hw_open` (lines 679-687). -/
def snd_pcm_hw_open (env : OpenEnv) (card device subdevice stream : Int)
    (mode : Nat) : Option Int × List Event :=
  let out := snd_pcm_hw_open_subdevice env card device subdevice stream mode
  match out.1 with
  | none => (none, out.2)
  | some err => if err < 0 then (some err, out.2) else (some 0, out.2)

/-- Embedding of `_snd_pcm_hw_open` (lines 689-733) on the children `conf` of
its configuration entry. -/
def _snd_pcm_hw_open (env : OpenEnv) (card_get_index : String → Int)
    (conf : List ConfigEntry) (stream : Int) (mode : Nat) :
    Option Int × List Event :=
  let scan := pcm_hw_conf_scan card_get_index conf (-1) 0 (-1)
  match scan.1 with
  | some err => (some err, [])
  | none =>
    if scan.2.1 < 0 then (some (- EINVAL), [])
    else snd_pcm_hw_open env scan.2.1 scan.2.2.1 scan.2.2.2 stream mode

/-- An environment of the resolver in which the name has a compound entry
of type `"custom"`, the type registry has the children `entries` for it,
and the loader finds every module and symbol; the entry point returns 0. -/
def resolver_env (entries : List ConfigEntry) : ResolverEnv where
  config_update := 0
  search_ctl := 0
  ctl_conf_compound := true
  search_type := 0
  type_string_get := (0, "custom")
  search_ctltype := fun _ => 0
  type_conf := fun _ => entries
  card_get_index := 0
  ctl_hw_open := 0
  dlopen := fun _ => true
  dlsym := fun _ _ => true
  open_func := fun _ _ => 0

/-! ## Ring commit (`snd_pcm_hw_mmap_forward`) -/

/-- The environment of `snd_pcm_hw_mmap_forward`: what
`snd_pcm_write_mmap(pcm, size)` returns and the session it leaves. -/
structure WriteEnv where
  write_mmap : snd_pcm_t → Nat → Int × snd_pcm_t

/-- Modelled from the spec: the inline helper `snd_pcm_mmap_appl_forward`,
which is not part of the sources: it "advances the application position by
`n` frames", modulo the ring. -/
def snd_pcm_mmap_appl_forward (pcm : snd_pcm_t) (frames : Nat) : snd_pcm_t :=
  { pcm with appl_ptr := (pcm.appl_ptr + frames) % pcm.setup.boundary }

/-- Embedding of `snd_pcm_hw_mmap_forward` (lines 462-468): the return value
and the session after the call. -/
def snd_pcm_hw_mmap_forward (env : WriteEnv) (pcm : snd_pcm_t) (size : Nat) :
    Int × snd_pcm_t :=
  if pcm.setup.mmap_shape = SND_PCM_MMAP_UNSPECIFIED ∧
      pcm.stream = SND_PCM_STREAM_PLAYBACK then
    env.write_mmap pcm size
  else
    (to_ssize size, snd_pcm_mmap_appl_forward pcm size)

/-! ## Theorems: open negotiation -/

/-- Mapping the status region is one `mmap` call, whatever its outcome. -/
theorem mmap_status_events (env : OpenEnv) (fd : Int) :
    (snd_pcm_hw_mmap_status env fd).2 = [Event.mmap_status fd] := by
  simp only [snd_pcm_hw_mmap_status]
  split_ifs <;> rfl

/-- Mapping the control region is one `mmap` call, whatever its outcome. -/
theorem mmap_control_events (env : OpenEnv) (fd : Int) :
    (snd_pcm_hw_mmap_control env fd).2 = [Event.mmap_control fd] := by
  simp only [snd_pcm_hw_mmap_control]
  split_ifs <;> rfl

/-- The session part never opens a device file. -/
theorem open_session_opens (env : OpenEnv) (fd : Int) :
    (open_session env fd).2.filter is_sys_open = [] := by
  unfold open_session
  simp only [mmap_status_events, mmap_control_events]
  split_ifs <;> simp [is_sys_open]

/-- In every environment the retry loop opens the device file at most
`4 - attempt` more times. -/
theorem open_again_opens_le (env : OpenEnv) (card device subdevice stream : Int)
    (mode : Nat) (n : Nat) : ∀ attempt, 4 - attempt = n →
    ((open_again env card device subdevice stream mode attempt).2.filter
      is_sys_open).length ≤ n := by
  induction n with
  | zero =>
    intro attempt h
    rw [open_again]
    have : attempt > 3 := by omega
    simp [this, is_sys_open]
  | succ n ih =>
    intro attempt h
    have h3 : ¬ attempt > 3 := by omega
    have ih1 := ih (attempt + 1) (by omega)
    rw [open_again]
    simp only [h3, dite_false]
    split_ifs <;> simp [is_sys_open, open_session_opens]
    omega

/-- When every attempt gets as far as the subdevice comparison and finds a
different subdevice, the loop ends in `-EBUSY` and leaves the set of open
descriptors as it found it. -/
theorem open_again_mismatch (env : OpenEnv) (card device subdevice stream : Int)
    (mode : Nat) (hsub : 0 ≤ subdevice)
    (hprefer : ∀ k, 0 ≤ env.prefer_subdevice k)
    (hopen : ∀ k, 0 ≤ (env.sys_open k).ret)
    (hver : ∀ k, 0 ≤ (env.pversion k).ret ∧ env.incompatible (env.ver k) = false)
    (hinfo : ∀ k, 0 ≤ (env.info k).ret ∧ env.info_subdevice k ≠ subdevice)
    (n : Nat) : ∀ attempt, 4 - attempt = n → ∀ acc,
    (open_again env card device subdevice stream mode attempt).1 = some (- EBUSY) ∧
    open_fds (open_again env card device subdevice stream mode attempt).2 acc = acc := by
  induction n with
  | zero =>
    intro attempt h acc
    rw [open_again]
    have : attempt > 3 := by omega
    simp [this, open_fds]
  | succ n ih =>
    intro attempt h acc
    have h3 : ¬ attempt > 3 := by omega
    have ih1 := ih (attempt + 1) (by omega)
    rw [open_again]
    simp only [h3, dite_false]
    have h1 := hprefer attempt
    have h2 := hopen attempt
    obtain ⟨h4, h5⟩ := hver attempt
    obtain ⟨h6, h7⟩ := hinfo attempt
    simp [not_lt.mpr h1, not_lt.mpr h2, not_lt.mpr h4, h5, hsub, not_lt.mpr h6, h7,
      open_fds, ih1, h2]
    exact (ih1 acc).1

/-- C1: for a requested subdevice `>= 0`, in an environment where the
negotiation always reaches the subdevice comparison (the control channel
opens, the preference is accepted, the device file opens and answers a
compatible version and its info) and every opened device file reports a
subdevice different from the requested one, `snd_pcm_hw_open_subdevice`
opens the device file at most 4 times, returns `-EBUSY`, and leaves no
descriptor it opened unclosed. -/
theorem open_subdevice_mismatch_busy (env : OpenEnv)
    (card device subdevice stream : Int) (mode : Nat)
    (hsub : 0 ≤ subdevice)
    (hstream : stream = SND_PCM_STREAM_PLAYBACK ∨ stream = SND_PCM_STREAM_CAPTURE)
    (hctl : 0 ≤ env.ctl_hw_open)
    (hprefer : ∀ k, 0 ≤ env.prefer_subdevice k)
    (hopen : ∀ k, 0 ≤ (env.sys_open k).ret)
    (hver : ∀ k, 0 ≤ (env.pversion k).ret ∧ env.incompatible (env.ver k) = false)
    (hinfo : ∀ k, 0 ≤ (env.info k).ret ∧ env.info_subdevice k ≠ subdevice) :
    (snd_pcm_hw_open_subdevice env card device subdevice stream mode).1
        = some (- EBUSY) ∧
    ((snd_pcm_hw_open_subdevice env card device subdevice stream mode).2.filter
        is_sys_open).length ≤ 4 ∧
    open_fds (snd_pcm_hw_open_subdevice env card device subdevice stream mode).2 []
        = [] := by
  have hm := open_again_mismatch env card device subdevice stream mode hsub hprefer
    hopen hver hinfo 4 0 rfl []
  have hl := open_again_opens_le env card device subdevice stream mode 4 0 rfl
  simp only [snd_pcm_hw_open_subdevice, not_lt.mpr hctl, hstream, if_true, if_false]
  refine ⟨hm.1, ?_, ?_⟩
  · simpa [is_sys_open] using hl
  · simpa [open_fds] using hm.2

/-- C1 at a concrete environment: subdevice 0 requested, every open yields a
device that reports subdevice 1. -/
theorem open_subdevice_mismatch_busy_witness :
    (snd_pcm_hw_open_subdevice (env_ok 131072 1) 0 0 0 0 0).1 = some (- EBUSY) ∧
    ((snd_pcm_hw_open_subdevice (env_ok 131072 1) 0 0 0 0 0).2.filter
        is_sys_open).length ≤ 4 ∧
    open_fds (snd_pcm_hw_open_subdevice (env_ok 131072 1) 0 0 0 0 0).2 [] = [] :=
  open_subdevice_mismatch_busy (env_ok 131072 1) 0 0 0 0 0 (by decide)
    (Or.inl (by decide)) (by decide) (fun _ => le_refl 0) (fun _ => by simp [env_ok])
    (fun _ => ⟨le_refl 0, rfl⟩) (fun _ => ⟨le_refl 0, by simp [env_ok]⟩)

/-- The session part issues no version query. -/
theorem open_session_no_pversion (env : OpenEnv) (fd fd1 r v : Int)
    (post : List Event) :
    ¬ (Event.ioctl_pversion fd1 r v :: post) <:+ (open_session env fd).2 := by
  unfold open_session
  simp only [mmap_status_events, mmap_control_events]
  split_ifs <;> simp [List.suffix_cons_iff]

/-- Inside the retry loop: a successful version query that reports an
incompatible version is followed by closing that descriptor and the control
channel, and by nothing else, and the loop returns the dedicated error. -/
theorem open_again_incompatible (env : OpenEnv) (card device subdevice stream : Int)
    (mode : Nat) (fd r v : Int) (post : List Event) (hr : 0 ≤ r)
    (hv : env.incompatible v = true) (n : Nat) : ∀ attempt, 4 - attempt = n →
    (Event.ioctl_pversion fd r v :: post) <:+
      (open_again env card device subdevice stream mode attempt).2 →
    (open_again env card device subdevice stream mode attempt).1
        = some (- SND_ERROR_INCOMPATIBLE_VERSION) ∧
    post = [Event.sys_close fd, Event.ctl_close] := by
  induction n with
  | zero =>
    intro attempt h
    rw [open_again]
    have : attempt > 3 := by omega
    simp [this, List.suffix_cons_iff]
  | succ n ih =>
    intro attempt h
    have h3 : ¬ attempt > 3 := by omega
    have ih1 := ih (attempt + 1) (by omega)
    have hs := open_session_no_pversion env (env.sys_open attempt).ret fd r v post
    rw [open_again]
    simp only [h3, dite_false]
    split_ifs <;> simp [List.suffix_cons_iff, hs]
    all_goals first
      | (intro h1 h2 h3 h4
         subst h1 h2 h3
         first | omega | contradiction | exact h4)
      | (rintro (⟨⟨h1, h2, h3⟩, -⟩ | hsuf)
         · subst h1 h2 h3
           contradiction
         · exact ih1 hsuf)

/-- C3: whenever a version query made by `snd_pcm_hw_open_subdevice` succeeds
and reports a version that the compatibility macro rejects, the call returns
`-SND_ERROR_INCOMPATIBLE_VERSION`, and everything it does after that query is
to close that device file and the control channel: no info query, no
mapping, no retry. -/
theorem open_subdevice_incompatible_version (env : OpenEnv)
    (card device subdevice stream : Int) (mode : Nat) (fd r v : Int)
    (post : List Event)
    (hq : (Event.ioctl_pversion fd r v :: post) <:+
      (snd_pcm_hw_open_subdevice env card device subdevice stream mode).2)
    (hr : 0 ≤ r) (hv : env.incompatible v = true) :
    (snd_pcm_hw_open_subdevice env card device subdevice stream mode).1
        = some (- SND_ERROR_INCOMPATIBLE_VERSION) ∧
    post = [Event.sys_close fd, Event.ctl_close] := by
  have hl := open_again_incompatible env card device subdevice stream mode fd r v post
    hr hv 4 0 rfl
  revert hq
  simp only [snd_pcm_hw_open_subdevice]
  split_ifs <;> simp [List.suffix_cons_iff]
  exact hl

/-- C3 at a concrete device: version 3.0.0 against the supported 2.0.0, a
major number above the supported one. -/
theorem open_subdevice_incompatible_version_witness :
    SND_PROTOCOL_MAJOR 196608 > SND_PROTOCOL_MAJOR SND_PCM_VERSION_MAX ∧
    (snd_pcm_hw_open_subdevice (env_ok 196608 0) 0 0 0 0 0).1
        = some (- SND_ERROR_INCOMPATIBLE_VERSION) ∧
    [Event.sys_close 3, Event.ctl_close] = [Event.sys_close 3, Event.ctl_close] :=
  ⟨by decide,
   open_subdevice_incompatible_version (env_ok 196608 0) 0 0 0 0 0 3 0 196608
    [Event.sys_close 3, Event.ctl_close]
    (by
      have hc : SND_PROTOCOL_INCOMPATIBLE 196608 SND_PCM_VERSION_MAX = true := by decide
      rw [snd_pcm_hw_open_subdevice, open_again]
      simp [env_ok, SND_PCM_STREAM_PLAYBACK, List.suffix_cons_iff, hc])
    (by decide) (by decide)⟩

/-- The error exits of the session part close the control channel once. -/
theorem open_session_error_closes_ctl (env : OpenEnv) (fd r : Int)
    (h : (open_session env fd).1 = some r) (hr : r ≠ 0) :
    (open_session env fd).2.count Event.ctl_close = 1 := by
  revert h
  unfold open_session
  simp only [mmap_status_events, mmap_control_events]
  split_ifs <;> simp
  intro h0
  exact absurd h0.symm hr

/-- The error exits of the retry loop close the control channel once. -/
theorem open_again_error_closes_ctl (env : OpenEnv)
    (card device subdevice stream : Int) (mode : Nat) (r : Int) (hr : r ≠ 0)
    (n : Nat) : ∀ attempt, 4 - attempt = n →
    (open_again env card device subdevice stream mode attempt).1 = some r →
    (open_again env card device subdevice stream mode attempt).2.count
      Event.ctl_close = 1 := by
  induction n with
  | zero =>
    intro attempt h
    rw [open_again]
    have : attempt > 3 := by omega
    simp [this]
  | succ n ih =>
    intro attempt h
    have h3 : ¬ attempt > 3 := by omega
    have ih1 := ih (attempt + 1) (by omega)
    have hs := open_session_error_closes_ctl env (env.sys_open attempt).ret r
    rw [open_again]
    simp only [h3, dite_false]
    split_ifs <;> simp
    · exact ih1
    · exact fun h => hs h hr
    · exact fun h => hs h hr

/-- Every exit of `snd_pcm_hw_open_subdevice` that returns a non-zero value
after the control channel was opened has closed the control channel exactly
once. -/
theorem open_subdevice_error_closes_ctl (env : OpenEnv)
    (card device subdevice stream : Int) (mode : Nat) (r : Int)
    (hctl : 0 ≤ env.ctl_hw_open) (hr : r ≠ 0)
    (h : (snd_pcm_hw_open_subdevice env card device subdevice stream mode).1 = some r) :
    (snd_pcm_hw_open_subdevice env card device subdevice stream mode).2.count
      Event.ctl_close = 1 := by
  have hl := open_again_error_closes_ctl env card device subdevice stream mode r hr
    4 0 rfl
  revert h
  simp only [snd_pcm_hw_open_subdevice, not_lt.mpr hctl, if_false]
  split_ifs <;> simp
  exact hl

/-- C2, the successful return: with every call succeeding and no subdevice
requested, `snd_pcm_hw_open_subdevice` returns 0 having opened the control
channel and never closed it. -/
theorem open_subdevice_success_leaves_ctl_open :
    snd_pcm_hw_open_subdevice (env_ok 131072 0) 0 0 (-1) 0 0 =
      (some 0,
        [Event.ctl_hw_open 0, Event.ctl_pcm_prefer_subdevice (-1),
         Event.sys_open 0 0 0 2 3, Event.ioctl_pversion 3 0 131072,
         Event.mmap_status 3, Event.mmap_control 3]) ∧
    (snd_pcm_hw_open_subdevice (env_ok 131072 0) 0 0 (-1) 0 0).2.count
      Event.ctl_close = 0 := by
  have hc : SND_PROTOCOL_INCOMPATIBLE 131072 SND_PCM_VERSION_MAX = false := by decide
  rw [snd_pcm_hw_open_subdevice, open_again]
  simp [env_ok, SND_PCM_STREAM_PLAYBACK, open_session, snd_pcm_hw_mmap_status,
    snd_pcm_hw_mmap_control, MAP_FAILED, open_fmode, O_RDWR, SND_PCM_NONBLOCK,
    SND_PCM_ASYNC, hc]

/-! ## Theorems: closing a session -/

/-- C4, the failing inputs: when only the control-region unmap fails (errno
22), `snd_pcm_hw_close` attempts the three releases and returns 0 although
the helper reported `-22`; when `close` itself fails (errno 9) it returns
`-9` without attempting either unmap. -/
theorem close_loses_release_failures :
    snd_pcm_hw_close ⟨⟨0, 0⟩, ⟨0, 0⟩, ⟨-1, 22⟩⟩ 3 =
      (0, [Release.sys_close 3, Release.munmap_status, Release.munmap_control]) ∧
    (snd_pcm_hw_munmap_control ⟨⟨0, 0⟩, ⟨0, 0⟩, ⟨-1, 22⟩⟩).1 = -22 ∧
    snd_pcm_hw_close ⟨⟨-1, 9⟩, ⟨0, 0⟩, ⟨0, 0⟩⟩ 3 = (-9, [Release.sys_close 3]) := by
  decide

/-! ## Theorems: availability -/

/-- A `size_t` value survives the conversion from its integer value. -/
theorem to_size_natCast (n : Nat) (h : n < SIZE_MOD) : to_size (n : Int) = n := by
  unfold to_size
  rw [Int.emod_eq_of_lt (by omega) (by exact_mod_cast h)]
  simp

/-- A `size_t` value below `2 ^ 63` is the same number as an `ssize_t`. -/
theorem to_ssize_of_lt (n : Nat) (h : n < SIZE_MOD / 2) : to_ssize n = (n : Int) := by
  have h2 : n < SIZE_MOD := by
    have : SIZE_MOD / 2 ≤ SIZE_MOD := Nat.div_le_self _ _
    omega
  unfold to_ssize
  rw [Nat.mod_eq_of_lt h2]
  simp [h]

/-- C5 fails on a capture stream with the unspecified ring shape: with
`hw_ptr = 10`, `appl_ptr = 0` and `buffer_size = 8` the computed availability
is 10, above `buffer_size`, and the query returns the raw count 10 (the
result of the read into the ring), not `-EPIPE`. -/
theorem avail_update_capture_unspecified_raw_count :
    computed_avail
      ⟨SND_PCM_STREAM_CAPTURE, ⟨8, 1024, 0, 0, SND_PCM_MMAP_UNSPECIFIED⟩, 10, 0⟩ = 10 ∧
    snd_pcm_hw_avail_update ⟨⟨0, 0⟩, fun n => (n : Int)⟩
      ⟨SND_PCM_STREAM_CAPTURE, ⟨8, 1024, 0, 0, SND_PCM_MMAP_UNSPECIFIED⟩, 10, 0⟩
      = some 10 := by
  decide

/-- C5 as amended: for a playback stream, and for a capture stream whose ring
shape is not the unspecified one, when the computed availability exceeds
`buffer_size` the query returns `-EPIPE` once it gets past the optional delay
request, and whatever it returns is negative, never a frame count. -/
theorem avail_update_xrun (env : PcmEnv) (pcm : snd_pcm_t)
    (hshape : pcm.stream = SND_PCM_STREAM_PLAYBACK ∨
      pcm.setup.mmap_shape ≠ SND_PCM_MMAP_UNSPECIFIED)
    (h : computed_avail pcm > pcm.setup.buffer_size) :
    (¬ ((pcm.setup.ready_mode = SND_PCM_READY_ASAP ∨
          pcm.setup.xrun_mode = SND_PCM_XRUN_ASAP) ∧ snd_pcm_hw_delay env < 0) →
      snd_pcm_hw_avail_update env pcm = some (- EPIPE)) ∧
    (∃ r, snd_pcm_hw_avail_update env pcm = some r ∧ r < 0) := by
  unfold computed_avail at h
  unfold snd_pcm_hw_avail_update
  by_cases hd : (pcm.setup.ready_mode = SND_PCM_READY_ASAP ∨
      pcm.setup.xrun_mode = SND_PCM_XRUN_ASAP) ∧ snd_pcm_hw_delay env < 0
  · simp only [hd, and_self, if_true, not_true, false_implies, true_and]
    exact ⟨_, rfl, hd.2⟩
  · by_cases hp : pcm.stream = SND_PCM_STREAM_PLAYBACK
    · simp only [hp, if_true] at h
      simp [hd, hp, h, EPIPE]
    · simp only [hp, if_false] at h
      have hs : pcm.setup.mmap_shape ≠ SND_PCM_MMAP_UNSPECIFIED := by
        rcases hshape with h1 | h1
        · exact absurd h1 hp
        · exact h1
      simp [hd, hp, h, hs, EPIPE]

/-- C5 amended, at a concrete playback stream in underrun: `appl_ptr = 0`,
`hw_ptr = 20`, so the computed availability overflows above `buffer_size`. -/
theorem avail_update_xrun_witness :
    snd_pcm_hw_avail_update ⟨⟨0, 0⟩, fun n => (n : Int)⟩
      ⟨SND_PCM_STREAM_PLAYBACK, ⟨8, 1024, 0, 0, SND_PCM_MMAP_INTERLEAVED⟩, 20, 0⟩
      = some (- EPIPE) :=
  (avail_update_xrun ⟨⟨0, 0⟩, fun n => (n : Int)⟩
    ⟨SND_PCM_STREAM_PLAYBACK, ⟨8, 1024, 0, 0, SND_PCM_MMAP_INTERLEAVED⟩, 20, 0⟩
    (Or.inl rfl) (by decide)).1 (by decide)

/-- C6 fails on a capture stream with the unspecified ring shape when the
read into the ring fails: difference 5 within `buffer_size = 8`, the delay
request not made, and the query returns the read error `-EIO`, not 5. -/
theorem avail_update_capture_read_error :
    position_difference
      ⟨SND_PCM_STREAM_CAPTURE, ⟨8, 1024, 0, 0, SND_PCM_MMAP_UNSPECIFIED⟩, 5, 0⟩ = 5 ∧
    snd_pcm_hw_avail_update ⟨⟨0, 0⟩, fun _ => - EIO⟩
      ⟨SND_PCM_STREAM_CAPTURE, ⟨8, 1024, 0, 0, SND_PCM_MMAP_UNSPECIFIED⟩, 5, 0⟩
      = some (- EIO) := by
  decide

/-- C6 as amended: with the difference of the positions within
`[0, buffer_size]`, the optional delay request not failing, and, for a
capture stream with the unspecified ring shape and a positive difference,
the read into the ring transferring all of it, the query returns exactly
`buffer_size − difference` for playback and `difference` for capture. -/
theorem avail_update_exact (env : PcmEnv) (pcm : snd_pcm_t)
    (hbs : pcm.setup.buffer_size < SIZE_MOD / 2)
    (hdiff : position_difference pcm ≤ pcm.setup.buffer_size)
    (hdelay : ¬ ((pcm.setup.ready_mode = SND_PCM_READY_ASAP ∨
        pcm.setup.xrun_mode = SND_PCM_XRUN_ASAP) ∧ snd_pcm_hw_delay env < 0))
    (hread : pcm.stream ≠ SND_PCM_STREAM_PLAYBACK →
      pcm.setup.mmap_shape = SND_PCM_MMAP_UNSPECIFIED →
      0 < position_difference pcm →
      env.read_mmap (position_difference pcm) = (position_difference pcm : Int)) :
    snd_pcm_hw_avail_update env pcm =
      some (if pcm.stream = SND_PCM_STREAM_PLAYBACK then
        (pcm.setup.buffer_size : Int) - (position_difference pcm : Int)
      else (position_difference pcm : Int)) := by
  have h2 : SIZE_MOD / 2 ≤ SIZE_MOD := Nat.div_le_self _ _
  unfold snd_pcm_hw_avail_update
  unfold position_difference at hdiff hread ⊢
  by_cases hp : pcm.stream = SND_PCM_STREAM_PLAYBACK
  · simp only [hp, if_true] at hdiff ⊢
    have ha : snd_pcm_mmap_playback_avail pcm =
        pcm.setup.buffer_size - ring_diff pcm.appl_ptr pcm.hw_ptr pcm.setup.boundary := by
      unfold snd_pcm_mmap_playback_avail
      rw [← Nat.cast_sub hdiff]
      exact to_size_natCast _ (by omega)
    simp only [hdelay, if_false, ha]
    rw [if_neg (by omega), to_ssize_of_lt _ (by omega), Nat.cast_sub hdiff]
  · simp only [hp, if_false, ne_eq, not_false_eq_true, forall_const] at hdiff hread ⊢
    simp only [hdelay, if_false, snd_pcm_mmap_capture_avail]
    by_cases hu : ring_diff pcm.hw_ptr pcm.appl_ptr pcm.setup.boundary > 0 ∧
        pcm.setup.mmap_shape = SND_PCM_MMAP_UNSPECIFIED
    · have hr := hread hu.2 hu.1
      simp only [hu, and_self, if_true, hr]
      rw [if_neg (by omega), if_pos (to_size_natCast _ (by omega))]
    · rw [if_neg hu, if_neg (by omega), to_ssize_of_lt _ (by omega)]

/-- C6 amended, at a concrete playback stream: `appl_ptr = 10`, `hw_ptr = 4`,
`buffer_size = 8`, so 2 frames are available. -/
theorem avail_update_exact_witness :
    snd_pcm_hw_avail_update ⟨⟨0, 0⟩, fun n => (n : Int)⟩
      ⟨SND_PCM_STREAM_PLAYBACK, ⟨8, 1024, 0, 0, SND_PCM_MMAP_INTERLEAVED⟩, 4, 10⟩
      = some 2 :=
  avail_update_exact ⟨⟨0, 0⟩, fun n => (n : Int)⟩
    ⟨SND_PCM_STREAM_PLAYBACK, ⟨8, 1024, 0, 0, SND_PCM_MMAP_INTERLEAVED⟩, 4, 10⟩
    (by decide) (by decide) (by decide) (fun h => absurd rfl h)

/-! ## Theorems: rewind -/

/-- An `ssize_t` lies in `[-2^63, 2^63)`. -/
theorem to_ssize_range (n : Nat) :
    -((SIZE_MOD / 2 : Nat) : Int) ≤ to_ssize n ∧ to_ssize n < ((SIZE_MOD / 2 : Nat) : Int) := by
  have hm : n % SIZE_MOD < SIZE_MOD := Nat.mod_lt _ (by decide)
  have h2 : SIZE_MOD / 2 + SIZE_MOD / 2 = SIZE_MOD := by decide
  unfold to_ssize
  split_ifs with h <;> constructor <;> push_cast <;> omega

/-- Converting an `ssize_t` value to `size_t` and back gives it back. -/
theorem to_ssize_to_size (i : Int) (h1 : -((SIZE_MOD / 2 : Nat) : Int) ≤ i)
    (h2 : i < ((SIZE_MOD / 2 : Nat) : Int)) : to_ssize (to_size i) = i := by
  have hM : (SIZE_MOD : Int) = 18446744073709551616 := by decide
  have hH : ((SIZE_MOD / 2 : Nat) : Int) = 9223372036854775808 := by decide
  have hN : SIZE_MOD = 18446744073709551616 := by decide
  have hHN : SIZE_MOD / 2 = 9223372036854775808 := by decide
  rw [hH] at h1 h2
  unfold to_ssize to_size
  rw [hM, hHN, hN]
  by_cases hi : 0 ≤ i
  · have e : i % 18446744073709551616 = i := Int.emod_eq_of_lt hi (by omega)
    rw [e]
    have : i.toNat % 18446744073709551616 = i.toNat := Nat.mod_eq_of_lt (by omega)
    rw [this, if_pos (by omega)]
    omega
  · have e : i % 18446744073709551616 = i + 18446744073709551616 := by
      rw [← Int.add_emod_self]
      exact Int.emod_eq_of_lt (by omega) (by omega)
    rw [e]
    have : (i + 18446744073709551616).toNat % 18446744073709551616
        = (i + 18446744073709551616).toNat := Nat.mod_eq_of_lt (by omega)
    rw [this, if_neg (by omega)]
    omega

/-- Subtracting a wrapped value wraps to the same `size_t`. -/
theorem to_size_sub_to_size (a i : Int) :
    to_size (a - (to_size i : Int)) = to_size (a - i) := by
  have hM : (SIZE_MOD : Int) = 18446744073709551616 := by decide
  unfold to_size
  rw [hM, Int.toNat_of_nonneg (Int.emod_nonneg _ (by omega))]
  congr 1
  omega

/-- The ring difference as an integer remainder. -/
theorem ring_diff_cast (a b B : Nat) (hB : 0 < B) :
    ((ring_diff a b B : Nat) : Int) = ((a : Int) - (b : Int)) % (B : Int) := by
  unfold ring_diff
  exact Int.toNat_of_nonneg (Int.emod_nonneg _ (by omega))

/-- The ring difference lies inside the ring. -/
theorem ring_diff_lt (a b B : Nat) (hB : 0 < B) : ring_diff a b B < B := by
  have h := ring_diff_cast a b B hB
  have h2 : ((a : Int) - (b : Int)) % (B : Int) < (B : Int) :=
    Int.emod_lt_of_pos _ (by omega)
  omega

/-- Moving the first position back by `k` shrinks its lead over the second
position by `k`. -/
theorem ring_diff_back_left (a h k B : Nat) (hB : 0 < B)
    (hk : k ≤ ring_diff a h B) :
    ring_diff (ring_diff a k B) h B = ring_diff a h B - k := by
  have hlt := ring_diff_lt a h B hB
  have e1 := ring_diff_cast (ring_diff a k B) h B hB
  have e2 := ring_diff_cast a k B hB
  have e3 := ring_diff_cast a h B hB
  have key : (((a : Int) - (k : Int)) % (B : Int) - (h : Int)) % (B : Int)
      = ((ring_diff a h B : Nat) : Int) - (k : Int) := by
    rw [sub_eq_add_neg, Int.emod_add_emod]
    have : (a : Int) - (k : Int) + -(h : Int) = ((a : Int) - (h : Int)) + -(k : Int) := by ring
    rw [this, ← Int.emod_add_emod, ← e3, ← sub_eq_add_neg]
    exact Int.emod_eq_of_lt (by omega) (by omega)
  rw [e2, key] at e1
  omega

/-- Moving the second position back by `k` grows the lead of the first
position over it by `k`, as long as the ring is not exceeded. -/
theorem ring_diff_back_right (a h k B : Nat) (hB : 0 < B)
    (hk : ring_diff h a B + k < B) :
    ring_diff h (ring_diff a k B) B = ring_diff h a B + k := by
  have e1 := ring_diff_cast h (ring_diff a k B) B hB
  have e2 := ring_diff_cast a k B hB
  have e3 := ring_diff_cast h a B hB
  have key : ((h : Int) - ((a : Int) - (k : Int)) % (B : Int)) % (B : Int)
      = ((ring_diff h a B : Nat) : Int) + (k : Int) := by
    rw [Int.sub_emod, Int.emod_emod, ← Int.sub_emod]
    have : (h : Int) - ((a : Int) - (k : Int)) = ((h : Int) - (a : Int)) + (k : Int) := by ring
    rw [this, ← Int.emod_add_emod, ← e3]
    exact Int.emod_eq_of_lt (by omega) (by omega)
  rw [e2, key] at e1
  omega

/-- In a valid ring the frames available to rewind on a playback stream are
the lead of the application position over the hardware position. -/
theorem hw_avail_playback (pcm : snd_pcm_t)
    (hp : pcm.stream = SND_PCM_STREAM_PLAYBACK) (hB : 0 < pcm.setup.boundary)
    (hB2 : pcm.setup.boundary ≤ SIZE_MOD / 2) :
    snd_pcm_mmap_hw_avail pcm
      = (ring_diff pcm.appl_ptr pcm.hw_ptr pcm.setup.boundary : Int) := by
  have hlt := ring_diff_lt pcm.appl_ptr pcm.hw_ptr pcm.setup.boundary hB
  unfold snd_pcm_mmap_hw_avail computed_avail snd_pcm_mmap_playback_avail
  rw [if_pos hp, to_size_sub_to_size, sub_sub_cancel]
  exact to_ssize_to_size _ (by omega) (by omega)

/-- In a valid ring the frames available to rewind on a capture stream are
`buffer_size` minus the frames available to read. -/
theorem hw_avail_capture (pcm : snd_pcm_t)
    (hp : pcm.stream ≠ SND_PCM_STREAM_PLAYBACK) (hB : 0 < pcm.setup.boundary)
    (hB2 : pcm.setup.boundary ≤ SIZE_MOD / 2)
    (hbs : pcm.setup.buffer_size < pcm.setup.boundary) :
    snd_pcm_mmap_hw_avail pcm
      = (pcm.setup.buffer_size : Int)
        - (ring_diff pcm.hw_ptr pcm.appl_ptr pcm.setup.boundary : Int) := by
  have hlt := ring_diff_lt pcm.hw_ptr pcm.appl_ptr pcm.setup.boundary hB
  unfold snd_pcm_mmap_hw_avail computed_avail snd_pcm_mmap_capture_avail
  rw [if_neg hp]
  exact to_ssize_to_size _ (by omega) (by omega)

/-- What `snd_pcm_hw_rewind` computes: nothing when the delay request fails
or nothing can be rewound, otherwise the requested count clamped to the
frames available to rewind. -/
theorem rewind_eq (env : PcmEnv) (pcm : snd_pcm_t) (frames : Nat) :
    snd_pcm_hw_rewind env pcm frames =
      if (pcm.setup.xrun_mode = SND_PCM_XRUN_ASAP ∧ snd_pcm_hw_delay env < 0) ∨
          snd_pcm_mmap_hw_avail pcm ≤ 0 then (0, pcm)
      else (((min frames (snd_pcm_mmap_hw_avail pcm).toNat : Nat) : Int),
        snd_pcm_mmap_appl_backward pcm (min frames (snd_pcm_mmap_hw_avail pcm).toNat)) := by
  unfold snd_pcm_hw_rewind
  by_cases hd : pcm.setup.xrun_mode = SND_PCM_XRUN_ASAP ∧ snd_pcm_hw_delay env < 0
  · simp [hd]
  · by_cases hH : snd_pcm_mmap_hw_avail pcm ≤ 0
    · simp [hd, hH]
    · have hr := (to_ssize_range
        (to_size ((pcm.setup.buffer_size : Int) - (computed_avail pcm : Int)))).2
      have hr2 : snd_pcm_mmap_hw_avail pcm < ((SIZE_MOD / 2 : Nat) : Int) := hr
      have h2 : SIZE_MOD / 2 ≤ SIZE_MOD := Nat.div_le_self _ _
      have hts : to_size (snd_pcm_mmap_hw_avail pcm) = (snd_pcm_mmap_hw_avail pcm).toNat := by
        have e := to_size_natCast (snd_pcm_mmap_hw_avail pcm).toNat (by omega)
        rwa [Int.toNat_of_nonneg (by omega)] at e
      have hmin : (if frames > (snd_pcm_mmap_hw_avail pcm).toNat then
          (snd_pcm_mmap_hw_avail pcm).toNat else frames)
          = min frames (snd_pcm_mmap_hw_avail pcm).toNat := by
        split_ifs with hc
        · exact (Nat.min_eq_right (by omega)).symm
        · exact (Nat.min_eq_left (by omega)).symm
      simp only [hd, hH, if_false, or_self, hts, hmin]
      rw [to_ssize_of_lt _ (by
        have := Nat.min_le_right frames (snd_pcm_mmap_hw_avail pcm).toNat
        omega)]

/-- In a valid ring, rewinding by `k` frames, at most the frames available to
rewind, lowers that count by `k`, and raises the availability by `k` when
the stream is not in xrun. -/
theorem appl_backward_avail (pcm : snd_pcm_t) (k : Nat)
    (hB : 0 < pcm.setup.boundary) (hB2 : pcm.setup.boundary ≤ SIZE_MOD / 2)
    (hbs : pcm.setup.buffer_size < pcm.setup.boundary)
    (hk : (k : Int) ≤ snd_pcm_mmap_hw_avail pcm) :
    snd_pcm_mmap_hw_avail (snd_pcm_mmap_appl_backward pcm k)
      = snd_pcm_mmap_hw_avail pcm - (k : Int) ∧
    (computed_avail pcm ≤ pcm.setup.buffer_size →
      computed_avail (snd_pcm_mmap_appl_backward pcm k) = computed_avail pcm + k) := by
  have h2 : SIZE_MOD / 2 ≤ SIZE_MOD := Nat.div_le_self _ _
  by_cases hp : pcm.stream = SND_PCM_STREAM_PLAYBACK
  · have hH := hw_avail_playback pcm hp hB hB2
    have hH2 := hw_avail_playback (snd_pcm_mmap_appl_backward pcm k) hp hB hB2
    have hk2 : k ≤ ring_diff pcm.appl_ptr pcm.hw_ptr pcm.setup.boundary := by omega
    have hb := ring_diff_back_left pcm.appl_ptr pcm.hw_ptr k pcm.setup.boundary hB hk2
    simp only [snd_pcm_mmap_appl_backward] at hH2 ⊢
    refine ⟨by rw [hH2, hH, hb]; omega, fun hav => ?_⟩
    have hA : snd_pcm_mmap_hw_avail pcm
        = (pcm.setup.buffer_size : Int) - (computed_avail pcm : Int) := by
      unfold snd_pcm_mmap_hw_avail
      exact to_ssize_to_size _ (by omega) (by omega)
    have hc : computed_avail pcm + k =
        pcm.setup.buffer_size - (ring_diff pcm.appl_ptr pcm.hw_ptr pcm.setup.boundary - k) := by
      omega
    rw [hc]
    unfold computed_avail snd_pcm_mmap_playback_avail
    simp only [hp, if_true, hb]
    rw [← Nat.cast_sub (by omega)]
    exact to_size_natCast _ (by omega)
  · have hH := hw_avail_capture pcm hp hB hB2 hbs
    have hH2 := hw_avail_capture (snd_pcm_mmap_appl_backward pcm k) hp hB hB2 hbs
    have hb := ring_diff_back_right pcm.appl_ptr pcm.hw_ptr k pcm.setup.boundary hB
      (by omega)
    simp only [snd_pcm_mmap_appl_backward] at hH2 ⊢
    refine ⟨by rw [hH2, hH, hb]; push_cast; ring, fun _ => ?_⟩
    unfold computed_avail snd_pcm_mmap_capture_avail
    simp only [hp, if_false, hb]

/-- C7: `snd_pcm_hw_rewind` returns a count `r` with `0 ≤ r ≤ min(frames,
frames available to rewind)`, zero when nothing can be rewound or the delay
request fails; the session afterwards is the session with the application
position moved backward by exactly `r`; and in a valid ring the frames
available to rewind drop by `r` and the availability grows by `r`. -/
theorem rewind_result (env : PcmEnv) (pcm : snd_pcm_t) (frames : Nat) :
    0 ≤ (snd_pcm_hw_rewind env pcm frames).1 ∧
    (snd_pcm_hw_rewind env pcm frames).1
      ≤ min (frames : Int) (max (snd_pcm_mmap_hw_avail pcm) 0) ∧
    ((snd_pcm_mmap_hw_avail pcm ≤ 0 ∨
        (pcm.setup.xrun_mode = SND_PCM_XRUN_ASAP ∧ snd_pcm_hw_delay env < 0)) →
      (snd_pcm_hw_rewind env pcm frames).1 = 0 ∧
      (snd_pcm_hw_rewind env pcm frames).2 = pcm) ∧
    (((snd_pcm_hw_rewind env pcm frames).1 = 0 ∧
        (snd_pcm_hw_rewind env pcm frames).2 = pcm) ∨
      (snd_pcm_hw_rewind env pcm frames).2
        = snd_pcm_mmap_appl_backward pcm (snd_pcm_hw_rewind env pcm frames).1.toNat) ∧
    (0 < pcm.setup.boundary → pcm.setup.boundary ≤ SIZE_MOD / 2 →
      pcm.setup.buffer_size < pcm.setup.boundary →
      snd_pcm_mmap_hw_avail (snd_pcm_hw_rewind env pcm frames).2
        = snd_pcm_mmap_hw_avail pcm - (snd_pcm_hw_rewind env pcm frames).1 ∧
      (computed_avail pcm ≤ pcm.setup.buffer_size →
        computed_avail (snd_pcm_hw_rewind env pcm frames).2
          = computed_avail pcm + (snd_pcm_hw_rewind env pcm frames).1.toNat)) := by
  rw [rewind_eq]
  by_cases hc : (pcm.setup.xrun_mode = SND_PCM_XRUN_ASAP ∧ snd_pcm_hw_delay env < 0) ∨
      snd_pcm_mmap_hw_avail pcm ≤ 0
  · simp only [hc, if_true]
    simp
  · simp only [hc, if_false]
    have hH : 0 < snd_pcm_mmap_hw_avail pcm := by
      by_contra hn
      exact hc (Or.inr (by omega))
    have hd : ¬ (pcm.setup.xrun_mode = SND_PCM_XRUN_ASAP ∧ snd_pcm_hw_delay env < 0) :=
      fun h => hc (Or.inl h)
    have hm1 := Nat.min_le_left frames (snd_pcm_mmap_hw_avail pcm).toNat
    have hm2 := Nat.min_le_right frames (snd_pcm_mmap_hw_avail pcm).toNat
    have hk : ((min frames (snd_pcm_mmap_hw_avail pcm).toNat : Nat) : Int)
        ≤ snd_pcm_mmap_hw_avail pcm := by omega
    refine ⟨by omega, ?_, ?_, Or.inr (by rw [Int.toNat_ofNat]), ?_⟩
    · rw [max_eq_left hH.le]
      exact le_min (by omega) hk
    · rintro (h | h)
      · omega
      · exact absurd h hd
    · intro hB hB2 hbs
      rw [Int.toNat_ofNat]
      exact appl_backward_avail pcm _ hB hB2 hbs hk

/-- C7 at a concrete playback stream: `appl_ptr = 10`, `hw_ptr = 4`,
`buffer_size = 8`; rewinding 3 of the 6 frames available to rewind. -/
theorem rewind_result_witness :
    (snd_pcm_hw_rewind ⟨⟨0, 0⟩, fun n => (n : Int)⟩
      ⟨SND_PCM_STREAM_PLAYBACK, ⟨8, 1024, 0, 0, SND_PCM_MMAP_INTERLEAVED⟩, 4, 10⟩ 3)
      = (3, ⟨SND_PCM_STREAM_PLAYBACK, ⟨8, 1024, 0, 0, SND_PCM_MMAP_INTERLEAVED⟩, 4, 7⟩) ∧
    snd_pcm_mmap_hw_avail (snd_pcm_hw_rewind ⟨⟨0, 0⟩, fun n => (n : Int)⟩
      ⟨SND_PCM_STREAM_PLAYBACK, ⟨8, 1024, 0, 0, SND_PCM_MMAP_INTERLEAVED⟩, 4, 10⟩ 3).2
      = snd_pcm_mmap_hw_avail
          ⟨SND_PCM_STREAM_PLAYBACK, ⟨8, 1024, 0, 0, SND_PCM_MMAP_INTERLEAVED⟩, 4, 10⟩
        - (snd_pcm_hw_rewind ⟨⟨0, 0⟩, fun n => (n : Int)⟩
          ⟨SND_PCM_STREAM_PLAYBACK, ⟨8, 1024, 0, 0, SND_PCM_MMAP_INTERLEAVED⟩, 4, 10⟩ 3).1 :=
  ⟨by decide,
   ((rewind_result ⟨⟨0, 0⟩, fun n => (n : Int)⟩
      ⟨SND_PCM_STREAM_PLAYBACK, ⟨8, 1024, 0, 0, SND_PCM_MMAP_INTERLEAVED⟩, 4, 10⟩ 3).2.2.2.2
      (by decide) (by decide) (by decide)).1⟩

/-! ## Theorems: control event loop -/

/-- The `switch` of the loop makes exactly the call the specification owes
for the record. -/
theorem ctl_dispatch_eq_expected (cb : snd_ctl_callbacks_t) (r : snd_ctl_event_t) :
    ctl_dispatch cb r = (expected_call cb r).toList := by
  unfold ctl_dispatch expected_call
  simp only [SND_CTL_EVENT_REBUILD, SND_CTL_EVENT_VALUE, SND_CTL_EVENT_CHANGE,
    SND_CTL_EVENT_ADD, SND_CTL_EVENT_REMOVE]
  split_ifs <;> simp_all

/-- With a handler set, a run of full-size records is dispatched record by
record and counted, and the loop goes on with what follows. -/
theorem ctl_read_loop_full (sz : Int) (cb : snd_ctl_callbacks_t) (hsz : 0 < sz)
    (recs : List CtlRead) (hfull : ∀ q ∈ recs, q.result = sz) (tail : List CtlRead) :
    ∀ count : Int, ctl_read_loop sz (some cb) (recs ++ tail) count =
      ((ctl_read_loop sz (some cb) tail (count + recs.length)).1,
       recs.filterMap (fun q => expected_call cb q.r)
         ++ (ctl_read_loop sz (some cb) tail (count + recs.length)).2.1,
       (ctl_read_loop sz (some cb) tail (count + recs.length)).2.2) := by
  induction recs with
  | nil => intro count; simp
  | cons q qs ih =>
    intro count
    have hq : q.result = sz := hfull q (List.mem_cons_self _ _)
    have ih1 := ih (fun x hx => hfull x (List.mem_cons_of_mem _ hx)) (count + 1)
    have hc : count + 1 + (qs.length : Int) = count + ((qs.length : Int) + 1) := by ring
    rw [List.cons_append, ctl_read_loop]
    simp only [hq, hsz, gt_iff_lt, ne_eq, not_true_eq_false, if_true, if_false]
    rw [ih1, ctl_dispatch_eq_expected, hc]
    cases he : expected_call cb q.r <;> simp [List.filterMap_cons, he]

/-- With a null handler set, a run of full-size records is consumed without
any call and without touching the count. -/
theorem ctl_read_loop_full_null (sz : Int) (hsz : 0 < sz)
    (recs : List CtlRead) (hfull : ∀ q ∈ recs, q.result = sz) (tail : List CtlRead)
    (count : Int) :
    ctl_read_loop sz none (recs ++ tail) count = ctl_read_loop sz none tail count := by
  induction recs with
  | nil => simp
  | cons q qs ih =>
    have hq : q.result = sz := hfull q (List.mem_cons_self _ _)
    rw [List.cons_append, ctl_read_loop]
    simp only [hq, hsz, gt_iff_lt, ne_eq, not_true_eq_false, if_true, if_false]
    exact ih (fun x hx => hfull x (List.mem_cons_of_mem _ hx))

/-- C8: with a non-null handler set, on a queue of full-size records followed
by a zero-length read, `snd_ctl_read` returns the number of records, has made
for each record, in queue order, exactly the call of the registered handler
of its kind with its control identifier (none for a kind without registered
handler or an unrecognized kind), and has read nothing past the zero-length
read. -/
theorem ctl_read_dispatches_and_counts (sz : Int) (cb : snd_ctl_callbacks_t)
    (recs : List CtlRead) (z : CtlRead) (rest : List CtlRead)
    (hsz : 0 < sz) (hfull : ∀ q ∈ recs, q.result = sz) (hz : z.result = 0) :
    snd_ctl_read sz (some cb) (recs ++ z :: rest) =
      ((recs.length : Int), recs.filterMap (fun q => expected_call cb q.r), rest) := by
  unfold snd_ctl_read
  rw [ctl_read_loop_full sz cb hsz recs hfull, ctl_read_loop]
  simp [hz]

/-- C8 at the queue `[value(id=3), add(id=7), rebuild]` with only the value
handler registered: 3 records counted, one value call with id 3. -/
theorem ctl_read_dispatches_and_counts_witness :
    snd_ctl_read 8 (some ⟨0, false, true, false, false, false⟩)
      ([⟨8, 0, ⟨SND_CTL_EVENT_VALUE, 3⟩⟩, ⟨8, 0, ⟨SND_CTL_EVENT_ADD, 7⟩⟩,
        ⟨8, 0, ⟨SND_CTL_EVENT_REBUILD, 0⟩⟩] ++ (⟨0, 0, ⟨0, 0⟩⟩ : CtlRead) :: [])
      = (3, [HandlerCall.value 0 3], []) :=
  ctl_read_dispatches_and_counts 8 ⟨0, false, true, false, false, false⟩
    [⟨8, 0, ⟨SND_CTL_EVENT_VALUE, 3⟩⟩, ⟨8, 0, ⟨SND_CTL_EVENT_ADD, 7⟩⟩,
      ⟨8, 0, ⟨SND_CTL_EVENT_REBUILD, 0⟩⟩] ⟨0, 0, ⟨0, 0⟩⟩ [] (by decide) (by decide) rfl

/-- With a null handler set, on a queue of full-size records followed by a
zero-length read, `snd_ctl_read` consumes every record and returns 0. -/
theorem ctl_read_null_returns_zero (sz : Int) (recs : List CtlRead) (z : CtlRead)
    (rest : List CtlRead) (hsz : 0 < sz) (hfull : ∀ q ∈ recs, q.result = sz)
    (hz : z.result = 0) :
    snd_ctl_read sz none (recs ++ z :: rest) = (0, [], rest) := by
  unfold snd_ctl_read
  rw [ctl_read_loop_full_null sz hsz recs hfull, ctl_read_loop]
  simp [hz]

/-- C9, the failing input: on three full-size records followed by a
zero-length read, `snd_ctl_read` with a null handler set consumes the
records and returns 0, while with a non-null handler set that registers no
handler it returns 3. -/
theorem ctl_read_null_does_not_count :
    snd_ctl_read 8 none
      [⟨8, 0, ⟨SND_CTL_EVENT_VALUE, 3⟩⟩, ⟨8, 0, ⟨SND_CTL_EVENT_ADD, 7⟩⟩,
        ⟨8, 0, ⟨SND_CTL_EVENT_REBUILD, 0⟩⟩, ⟨0, 0, ⟨0, 0⟩⟩] = (0, [], []) ∧
    snd_ctl_read 8 (some ⟨0, false, false, false, false, false⟩)
      [⟨8, 0, ⟨SND_CTL_EVENT_VALUE, 3⟩⟩, ⟨8, 0, ⟨SND_CTL_EVENT_ADD, 7⟩⟩,
        ⟨8, 0, ⟨SND_CTL_EVENT_REBUILD, 0⟩⟩, ⟨0, 0, ⟨0, 0⟩⟩] = (3, [], []) := by
  decide

/-- C10: when, after any number of full-size records, a read returns a
positive length different from the size of a record, `snd_ctl_read` returns
`-EIO`, reads nothing further, and has made only the calls owed to the
records before it, whatever the handler set. -/
theorem ctl_read_short_record (sz : Int) (cb : Option snd_ctl_callbacks_t)
    (recs : List CtlRead) (bad : CtlRead) (rest : List CtlRead)
    (hsz : 0 < sz) (hfull : ∀ q ∈ recs, q.result = sz)
    (hpos : 0 < bad.result) (hbad : bad.result ≠ sz) :
    snd_ctl_read sz cb (recs ++ bad :: rest) =
      (- EIO, (snd_ctl_read sz cb recs).2.1, rest) := by
  have hrecs : recs = recs ++ [] := by simp
  unfold snd_ctl_read
  cases cb with
  | none =>
    rw [ctl_read_loop_full_null sz hsz recs hfull, ctl_read_loop]
    conv_rhs => rw [hrecs, ctl_read_loop_full_null sz hsz recs hfull]
    simp [hpos, hbad, ctl_read_loop]
  | some c =>
    rw [ctl_read_loop_full sz c hsz recs hfull, ctl_read_loop]
    conv_rhs => rw [hrecs, ctl_read_loop_full sz c hsz recs hfull]
    simp [hpos, hbad, ctl_read_loop]

/-- C10 at a concrete queue: one full-size value record, then a 5-byte read,
then another full-size record that is never read. -/
theorem ctl_read_short_record_witness :
    snd_ctl_read 8 (some ⟨0, true, true, true, true, true⟩)
      ([⟨8, 0, ⟨SND_CTL_EVENT_VALUE, 3⟩⟩] ++ (⟨5, 0, ⟨SND_CTL_EVENT_ADD, 7⟩⟩ : CtlRead)
        :: [⟨8, 0, ⟨SND_CTL_EVENT_REMOVE, 9⟩⟩])
      = (- EIO,
         (snd_ctl_read 8 (some ⟨0, true, true, true, true, true⟩)
           [⟨8, 0, ⟨SND_CTL_EVENT_VALUE, 3⟩⟩]).2.1,
         [⟨8, 0, ⟨SND_CTL_EVENT_REMOVE, 9⟩⟩]) :=
  ctl_read_short_record 8 (some ⟨0, true, true, true, true, true⟩)
    [⟨8, 0, ⟨SND_CTL_EVENT_VALUE, 3⟩⟩] ⟨5, 0, ⟨SND_CTL_EVENT_ADD, 7⟩⟩
    [⟨8, 0, ⟨SND_CTL_EVENT_REMOVE, 9⟩⟩] (by decide) (by decide) (by decide) (by decide)

/-! ## Theorems: backend resolver -/

/-- Without an `open` key among the children, the loop of `snd_ctl_open`
either returns `-EINVAL` early or ends with `open` still null. -/
theorem ctl_type_scan_no_open (entries : List ConfigEntry)
    (hno : ∀ n ∈ entries, n.id ≠ "open") : ∀ lib : Option String,
    (ctl_type_scan entries lib none).1 = some (- EINVAL) ∨
    ((ctl_type_scan entries lib none).1 = none ∧
      (ctl_type_scan entries lib none).2.2 = none) := by
  induction entries with
  | nil => intro lib; simp [ctl_type_scan]
  | cons n rest ih =>
    intro lib
    have hn : n.id ≠ "open" := hno n (List.mem_cons_self _ _)
    have ih1 := ih (fun x hx => hno x (List.mem_cons_of_mem _ hx))
    rw [ctl_type_scan]
    simp only [hn, if_false]
    split_ifs
    · exact ih1 lib
    · exact Or.inl rfl
    · exact ih1 _
    · exact ih1 lib

/-- C11: when the name has a compound configuration entry with a string
`type` that the type registry knows, and the registry entry has no `open`
key, `snd_ctl_open` returns `-EINVAL` and has neither loaded a module, nor
called an entry point, nor opened the hardware directly. -/
theorem ctl_open_missing_open_key (env : ResolverEnv) (name : String)
    (hupd : 0 ≤ env.config_update) (hctl : 0 ≤ env.search_ctl)
    (hcomp : env.ctl_conf_compound = true) (htype : 0 ≤ env.search_type)
    (hstr : 0 ≤ env.type_string_get.1)
    (hreg : 0 ≤ env.search_ctltype env.type_string_get.2)
    (hno : ∀ n ∈ env.type_conf env.type_string_get.2, n.id ≠ "open") :
    snd_ctl_open env name = (- EINVAL, []) := by
  unfold snd_ctl_open
  simp only [not_lt.mpr hupd, not_lt.mpr hctl, hcomp, not_lt.mpr htype, not_lt.mpr hstr,
    not_lt.mpr hreg, if_false, not_true_eq_false]
  rcases ctl_type_scan_no_open _ hno none with h | ⟨h1, h2⟩
  · rw [h]
  · rw [h1, h2]

/-- C11 at the registry entry `{ comment, lib }` of type `"custom"` for the
name `"myctl"`. -/
theorem ctl_open_missing_open_key_witness :
    snd_ctl_open (resolver_env [⟨"comment", (0, "a custom control"), (-22, 0)⟩,
      ⟨"lib", (0, "libcustom.so"), (-22, 0)⟩]) "myctl" = (- EINVAL, []) :=
  ctl_open_missing_open_key (resolver_env [⟨"comment", (0, "a custom control"), (-22, 0)⟩,
      ⟨"lib", (0, "libcustom.so"), (-22, 0)⟩]) "myctl"
    (by decide) (by decide) rfl (by decide) (by decide) (by decide) (by decide)

/-- A child of the registry entry whose key is none of `comment`, `lib` and
`open` is skipped by the loop of `snd_ctl_open`. -/
theorem ctl_type_scan_skips_unknown (n : ConfigEntry) (rest : List ConfigEntry)
    (lib sym : Option String) (h1 : n.id ≠ "comment") (h2 : n.id ≠ "lib")
    (h3 : n.id ≠ "open") :
    ctl_type_scan (n :: rest) lib sym = ctl_type_scan rest lib sym := by
  rw [ctl_type_scan]
  simp only [h1, h2, h3, if_false]

/-- C12, the failing input: with the registry entry `{ open = "my_open",
bogus = "x" }` the unknown key `bogus` is ignored and `snd_ctl_open` goes on
to load `libasound.so`, resolve `my_open` and return the result of calling
it. -/
theorem ctl_open_ignores_unknown_key :
    snd_ctl_open (resolver_env [⟨"open", (0, "my_open"), (-22, 0)⟩,
      ⟨"bogus", (0, "x"), (-22, 0)⟩]) "myctl" =
      (0, [ResolverEvent.dlopen "libasound.so",
           ResolverEvent.dlsym "libasound.so" "my_open",
           ResolverEvent.dlclose "libasound.so",
           ResolverEvent.open_func "libasound.so" "my_open"]) := by
  decide

/-- The sibling resolver `_snd_pcm_hw_open` rejects an unknown key: after
any number of `comment`, `type` and `stream` children, a child whose key is
not one it knows makes it return `-EINVAL` without opening anything. -/
theorem pcm_hw_open_rejects_unknown_key (env : OpenEnv)
    (card_get_index : String → Int) (pre : List ConfigEntry) (n : ConfigEntry)
    (rest : List ConfigEntry) (stream : Int) (mode : Nat)
    (hpre : ∀ x ∈ pre, x.id = "comment" ∨ x.id = "type" ∨ x.id = "stream")
    (h1 : n.id ≠ "comment") (h2 : n.id ≠ "type") (h3 : n.id ≠ "stream")
    (h4 : n.id ≠ "card") (h5 : n.id ≠ "device") (h6 : n.id ≠ "subdevice") :
    _snd_pcm_hw_open env card_get_index (pre ++ n :: rest) stream mode
      = (some (- EINVAL), []) := by
  have hscan : ∀ c d s, (pcm_hw_conf_scan card_get_index (pre ++ n :: rest) c d s).1
      = some (- EINVAL) := by
    induction pre with
    | nil =>
      intro c d s
      rw [List.nil_append, pcm_hw_conf_scan]
      simp only [h1, h2, h3, h4, h5, h6, if_false]
    | cons x xs ih =>
      intro c d s
      have hx := hpre x (List.mem_cons_self _ _)
      have ih1 := ih (fun y hy => hpre y (List.mem_cons_of_mem _ hy)) c d s
      rw [List.cons_append, pcm_hw_conf_scan]
      rcases hx with hx | hx | hx
      · simp only [hx, if_true]
        exact ih1
      · have : ¬ ("type" = "comment") := by decide
        simp only [hx, this, if_true, if_false]
        exact ih1
      · have a : ¬ ("stream" = "comment") := by decide
        have b : ¬ ("stream" = "type") := by decide
        simp only [hx, a, b, if_true, if_false]
        exact ih1
  unfold _snd_pcm_hw_open
  simp only [hscan]

/-! ## Theorems: ring commit -/

/-- After an advance by fewer frames than the ring holds, the application
position is exactly that many frames ahead of where it was. -/
theorem appl_forward_ahead (pcm : snd_pcm_t) (frames : Nat)
    (hB : 0 < pcm.setup.boundary) (hf : frames < pcm.setup.boundary) :
    ring_diff (snd_pcm_mmap_appl_forward pcm frames).appl_ptr pcm.appl_ptr
      pcm.setup.boundary = frames := by
  have e := ring_diff_cast ((pcm.appl_ptr + frames) % pcm.setup.boundary) pcm.appl_ptr
    pcm.setup.boundary hB
  have key : ((((pcm.appl_ptr + frames) % pcm.setup.boundary : Nat) : Int)
      - (pcm.appl_ptr : Int)) % (pcm.setup.boundary : Int) = (frames : Int) := by
    rw [Int.natCast_mod, sub_eq_add_neg, Int.emod_add_emod]
    have : ((pcm.appl_ptr + frames : Nat) : Int) + -(pcm.appl_ptr : Int) = (frames : Int) := by
      push_cast
      ring
    rw [this]
    exact Int.emod_eq_of_lt (by omega) (by omega)
  rw [key] at e
  simp only [snd_pcm_mmap_appl_forward]
  omega

/-- C13 fails on a capture stream with the unspecified ring shape: committing
4 frames advances the application position from 2 to 6 and returns 4; no
write through the transfer path is made, whose result here would be `-EIO`. -/
theorem mmap_forward_capture_unspecified_advances :
    snd_pcm_hw_mmap_forward ⟨fun p _ => (- EIO, p)⟩
      ⟨SND_PCM_STREAM_CAPTURE, ⟨8, 1024, 0, 0, SND_PCM_MMAP_UNSPECIFIED⟩, 6, 2⟩ 4
      = (4, ⟨SND_PCM_STREAM_CAPTURE, ⟨8, 1024, 0, 0, SND_PCM_MMAP_UNSPECIFIED⟩, 6, 6⟩) ∧
    snd_pcm_hw_mmap_forward ⟨fun p _ => (- EIO, p)⟩
      ⟨SND_PCM_STREAM_CAPTURE, ⟨8, 1024, 0, 0, SND_PCM_MMAP_UNSPECIFIED⟩, 6, 2⟩ 4
      ≠ (⟨fun p _ => (- EIO, p)⟩ : WriteEnv).write_mmap
          ⟨SND_PCM_STREAM_CAPTURE, ⟨8, 1024, 0, 0, SND_PCM_MMAP_UNSPECIFIED⟩, 6, 2⟩ 4 := by
  decide

/-- C13 as amended: for a frame count below `2 ^ 63`, `snd_pcm_hw_mmap_forward`
is decided by the ring shape together with the stream direction: for the
unspecified shape on a playback stream it performs the write of `size` frames
through the transfer path and returns its result; in every other case (a
kernel-mapped shape, or a capture stream) it advances the application
position by `size` frames and returns `size`. -/
theorem mmap_forward_result (env : WriteEnv) (pcm : snd_pcm_t) (size : Nat)
    (hsize : size < SIZE_MOD / 2) :
    snd_pcm_hw_mmap_forward env pcm size =
      (if pcm.setup.mmap_shape = SND_PCM_MMAP_UNSPECIFIED ∧
          pcm.stream = SND_PCM_STREAM_PLAYBACK then env.write_mmap pcm size
       else ((size : Int), snd_pcm_mmap_appl_forward pcm size)) ∧
    (0 < pcm.setup.boundary → size < pcm.setup.boundary →
      ring_diff (snd_pcm_mmap_appl_forward pcm size).appl_ptr pcm.appl_ptr
        pcm.setup.boundary = size) := by
  refine ⟨?_, appl_forward_ahead pcm size⟩
  unfold snd_pcm_hw_mmap_forward
  rw [to_ssize_of_lt size hsize]

/-- C13 amended, at a concrete playback stream with a kernel-mapped ring:
committing 4 frames moves the application position from 10 to 14 and
returns 4. -/
theorem mmap_forward_result_witness :
    snd_pcm_hw_mmap_forward ⟨fun p _ => (- EIO, p)⟩
      ⟨SND_PCM_STREAM_PLAYBACK, ⟨8, 1024, 0, 0, SND_PCM_MMAP_INTERLEAVED⟩, 4, 10⟩ 4
      = (4, ⟨SND_PCM_STREAM_PLAYBACK, ⟨8, 1024, 0, 0, SND_PCM_MMAP_INTERLEAVED⟩, 4, 14⟩) :=
  (mmap_forward_result ⟨fun p _ => (- EIO, p)⟩
    ⟨SND_PCM_STREAM_PLAYBACK, ⟨8, 1024, 0, 0, SND_PCM_MMAP_INTERLEAVED⟩, 4, 10⟩ 4
    (by decide)).1.trans (by decide)

end AlsaLib
